import Mathlib

/-!
Verification of the payment-adapter code of this repository:
the Express webhook route (HMAC-SHA384 signature check), the
CustomPaymentProviderService (axios-based) and the FoxPayProviderService
(fetch-based).  Each source function is embedded as a pure Lean function;
network responses are passed in as explicit inputs, so that every control
path of the source appears as a case of the embedding.
-/

/-!
## Model of Node crypto HMAC-SHA384

The webhook route calls the external Node library function
crypto.createHmac("sha384", secret).update(payload).digest("hex").
We model it by a full implementation of SHA-384 / HMAC per FIPS 180-4 and
RFC 2104 over Nat arithmetic mod 2^64.  The round constants and the
initial hash values are derived from the fractional parts of the cube
roots of the first eighty primes and the square roots of the ninth to
sixteenth primes, exactly as FIPS 180-4 defines them.
-/

namespace HmacSha384

def M64 : Nat := 18446744073709551616

def rotr (x n : Nat) : Nat := ((x >>> n) ||| (x <<< (64 - n))) % M64

def bigSigma0 (x : Nat) : Nat := rotr x 28 ^^^ rotr x 34 ^^^ rotr x 39

def bigSigma1 (x : Nat) : Nat := rotr x 14 ^^^ rotr x 18 ^^^ rotr x 41

def smallSigma0 (x : Nat) : Nat := rotr x 1 ^^^ rotr x 8 ^^^ (x >>> 7)

def smallSigma1 (x : Nat) : Nat := rotr x 19 ^^^ rotr x 61 ^^^ (x >>> 6)

def ch (e f g : Nat) : Nat := (e &&& f) ^^^ ((e ^^^ (M64 - 1)) &&& g)

def maj (a b c : Nat) : Nat := (a &&& b) ^^^ (a &&& c) ^^^ (b &&& c)

def isPrimeNaive (n : Nat) : Bool :=
  decide (2 ≤ n) && (((List.range n).drop 2).all (fun d => n % d != 0))

def primes80 : List Nat := ((List.range 410).filter isPrimeNaive).take 80

/-- Binary search for the integer cube root (largest r with r^3 ≤ x). -/
def cbrtAux (x : Nat) : Nat → Nat → Nat → Nat
  | 0, lo, _ => lo
  | fuel + 1, lo, hi =>
      if hi ≤ lo + 1 then lo
      else
        let mid := (lo + hi) / 2
        if mid * mid * mid ≤ x then cbrtAux x fuel mid hi
        else cbrtAux x fuel lo mid

def icbrt (x : Nat) : Nat := cbrtAux x 256 0 (x + 1)

/-- The eighty SHA-512 round constants: first 64 bits of the fractional
parts of the cube roots of the first eighty primes. -/
def K : List Nat := primes80.map (fun p => icbrt (p * 2 ^ 192) % M64)

/-- SHA-384 initial hash values: first 64 bits of the fractional parts of
the square roots of the ninth through sixteenth primes. -/
def IV : List Nat := ((primes80.drop 8).take 8).map (fun p => Nat.sqrt (p * 2 ^ 128) % M64)

/-- Big-endian byte expansion of x into n bytes. -/
def toBE (n x : Nat) : List Nat :=
  (List.range n).map (fun i => (x >>> (8 * (n - 1 - i))) % 256)

/-- FIPS 180-4 padding for the 1024-bit-block hashes. -/
def pad (msg : List Nat) : List Nat :=
  let zeros := (128 - ((msg.length + 17) % 128)) % 128
  msg ++ [128] ++ List.replicate zeros 0 ++ toBE 16 (8 * msg.length)

def bytesToWords : List Nat → List Nat
  | b0 :: b1 :: b2 :: b3 :: b4 :: b5 :: b6 :: b7 :: rest =>
      (((((((b0 * 256 + b1) * 256 + b2) * 256 + b3) * 256 + b4) * 256 + b5) * 256
          + b6) * 256 + b7) :: bytesToWords rest
  | _ => []

def toBlocks (ws : List Nat) : List (List Nat) :=
  if h : ws = [] then []
  else ws.take 16 :: toBlocks (ws.drop 16)
termination_by ws.length
decreasing_by
  simp only [List.length_drop]
  have hp : 0 < ws.length := List.length_pos.mpr h
  omega

/-- Extend the sixteen block words to the eighty schedule words. -/
def msgSchedule (block : List Nat) : Array Nat :=
  (List.range 64).foldl
    (fun w i =>
      let t := i + 16
      w.push ((smallSigma1 (w.getD (t - 2) 0) + w.getD (t - 7) 0
          + smallSigma0 (w.getD (t - 15) 0) + w.getD (t - 16) 0) % M64))
    block.toArray

def roundStep (st : List Nat) (kw : Nat × Nat) : List Nat :=
  match st with
  | [a, b, c, d, e, f, g, h] =>
      let t1 := (h + bigSigma1 e + ch e f g + kw.1 + kw.2) % M64
      let t2 := (bigSigma0 a + maj a b c) % M64
      [(t1 + t2) % M64, a, b, c, (d + t1) % M64, e, f, g]
  | other => other

def compressBlock (hs : List Nat) (block : List Nat) : List Nat :=
  let w := msgSchedule block
  let fin := (K.zip w.toList).foldl roundStep hs
  (hs.zip fin).map (fun p => (p.1 + p.2) % M64)

/-- SHA-384 of a byte list: SHA-512 compression with the SHA-384 initial
values, output truncated to the first six 64-bit words (48 bytes). -/
def sha384Bytes (msg : List Nat) : List Nat :=
  let hs := (toBlocks (bytesToWords (pad msg))).foldl compressBlock IV
  ((hs.take 6).map (toBE 8)).foldr (fun a b => a ++ b) []

/-- RFC 2104 HMAC with SHA-384 (block size 128 bytes). -/
def hmacBytes (key msg : List Nat) : List Nat :=
  let k0 := if 128 < key.length then sha384Bytes key else key
  let kp := k0 ++ List.replicate (128 - k0.length) 0
  let ipadded := kp.map (fun b => b ^^^ 54)
  let opadded := kp.map (fun b => b ^^^ 92)
  sha384Bytes (opadded ++ sha384Bytes (ipadded ++ msg))

def hexDigit (n : Nat) : Char := Char.ofNat (if n < 10 then 48 + n else 87 + n)

/-- Lowercase hex rendering, as Node digest("hex") produces. -/
def bytesToHex (bs : List Nat) : String :=
  String.mk (bs.foldr (fun b acc => hexDigit (b / 16) :: hexDigit (b % 16) :: acc) [])

/-- UTF-8 bytes of a string, as Node hmac.update uses by default. -/
def strBytes (s : String) : List Nat := s.toUTF8.toList.map (fun b => b.toNat)

end HmacSha384

/-- Model of crypto.createHmac("sha384", key).update(msg).digest("hex"). -/
def hmacSha384Hex (key msg : String) : String :=
  HmacSha384.bytesToHex (HmacSha384.hmacBytes (HmacSha384.strBytes key) (HmacSha384.strBytes msg))

/-!
## Shared JavaScript-value modelling

JavaScript objects whose precise field set the source does not fix are
modelled as association lists from field name to string value; lookup is
first-match, and the spread \x7b...a, ...b\x7d is modelled by removing
from a the keys of b and appending b.  Fields the source destructures are
modelled as structure fields, with Option for possibly-undefined ones.
-/

/-- An open JavaScript object: field names mapped to string values. -/
abbrev JsObj := List (String × String)

def jsLookup (o : JsObj) (k : String) : Option String :=
  (o.find? (fun p => p.1 == k)).map (fun p => p.2)

/-- Field access coerced to a string, as a template literal renders it:
an absent field (undefined) prints as "undefined". -/
def jsStr (o : JsObj) (k : String) : String := (jsLookup o k).getD "undefined"

/-- The object spread \x7b...a, ...b\x7d: values of b win on common keys. -/
def jsMerge (a b : JsObj) : JsObj :=
  a.filter (fun p => !(b.any (fun q => q.1 == p.1))) ++ b

/-- Outcome of a fetch call as the FoxPay service consumes it:
res.ok with the JSON body decoded to α, a non-2xx response with its body
text, or a thrown value (network failure or body-decoding failure)
carried by its message. -/
inductive FetchResult (α : Type) where
  | ok (data : α)
  | httpErr (text : String)
  | exn (message : String)
  deriving DecidableEq

/-- Outcome of an axios call as the Custom service consumes it: axios
resolves only for 2xx responses (body decoded to α) and rejects with an
error — carried here by its message — for non-2xx statuses as well as for
transport failures. -/
inductive AxiosOutcome (α : Type) where
  | success (data : α)
  | failure (message : String)
  deriving DecidableEq

/-- The tagged result the FoxPay operations return: either the success
payload or an error object carrying code and detail.  In the source the
error object also carries an Error value (the cause); for the catch
branches code is "unknown" and detail is that thrown value, so detail
doubles as the cause there. -/
inductive GwResult (α : Type) where
  | success (v : α)
  | gwError (code : String) (detail : String)
  deriving DecidableEq

/-!
## The webhook route (src/api/routes/store/payment.js)

router.post("/payment/webhook"): stringifies the parsed request body,
reads the x-hmac-sha384 header and the PAYMENT_PROVIDER_WEBHOOK_SECRET
environment value, computes the HMAC hex digest and compares with the
strict inequality operator; a mismatch (including an absent header)
answers 401 "Invalid signature", otherwise 200 "Webhook received".
The try block contains no payment-session update code (a comment marks it
unimplemented), so the route performs zero calls into the session state
machine on every path; the Nat component below counts those calls.
When the secret environment value is absent, crypto.createHmac receives
undefined and throws a TypeError before any comparison happens; that is
the Except.error path.
-/

structure HttpResponse where
  status : Nat
  body : String
  deriving DecidableEq

def hmacUndefinedKeyError : String :=
  "TypeError: The key argument must be of type string or an instance of Buffer, TypedArray, DataView, KeyObject, or CryptoKey. Received undefined"

def webhookRoute (webhookSecret : Option String) (payload : String)
    (signatureHeader : Option String) : Except String (HttpResponse × Nat) :=
  match webhookSecret with
  | none => .error hmacUndefinedKeyError
  | some secret =>
      let hmac := hmacSha384Hex secret payload
      if signatureHeader != some hmac then .ok (⟨401, "Invalid signature"⟩, 0)
      else .ok (⟨200, "Webhook received"⟩, 0)

/-!
## FoxPayProviderService

Each method performs one fetch against the FoxPay base URL and classifies
the outcome; the response is passed in as a FetchResult input, one
constructor per control path of the source (res.ok branch, the !res.ok
branch reading res.text(), and the catch branch).
-/

namespace FoxPay

/-- Response JSON of the /status/:id endpoint; the status field may be
absent. -/
structure StatusData where
  status : Option String
  deriving DecidableEq

/-- The part of a CreatePaymentProviderSession that initiatePayment
reads: amount, currency_code, and cart_id from the payment context. -/
structure InitContext where
  amount : Rat
  currency_code : String
  cart_id : Option String

/-- The JSON body initiatePayment posts to /initiate. -/
structure InitPayload where
  amount : Rat
  currency : String
  verwendungszweck : String
  deriving DecidableEq

def initiatePayload (ctx : InitContext) : InitPayload :=
  ⟨ctx.amount, ctx.currency_code.toUpper, "Order #" ++ ctx.cart_id.getD "unknown"⟩

/-- Decoded JSON of a successful /initiate response. -/
structure InitRespData where
  id : Option String
  qr_code_url : Option String
  deriving DecidableEq

/-- The data record initiatePayment stores in the session on success. -/
structure SessionData where
  id : Option String
  qr_code_url : Option String
  verwendungszweck : String
  deriving DecidableEq

/-- initiatePayment: posts initiatePayload; non-2xx gives code
init_failed with the body text as detail, a thrown failure gives code
unknown, success stores id, qr_code_url and the memo in the session
data.  (The source spreads the whole response object around the data
field; the session data field is what the spec tracks.) -/
def initiatePayment (ctx : InitContext) (resp : FetchResult InitRespData) :
    GwResult SessionData :=
  match resp with
  | .httpErr t => .gwError "init_failed" t
  | .exn e => .gwError "unknown" e
  | .ok d => .success ⟨d.id, d.qr_code_url, "Order #" ++ ctx.cart_id.getD "unknown"⟩

/-- The URL authorizePayment and getPaymentStatus query: the id field of
the session data interpolated into /status/. -/
def statusUrl (baseUrl : String) (pd : JsObj) : String :=
  baseUrl ++ "/status/" ++ jsStr pd "id"

/-- authorizePayment: queries /status/:id.  A non-2xx answer gives code
status_failed, a thrown failure gives unknown, a decoded body with
status "authorized" returns status authorized with a copy of the session
data, and any other decoded status returns code not_authorized. -/
def authorizePayment (pd : JsObj) (resp : FetchResult StatusData) :
    GwResult (String × JsObj) :=
  match resp with
  | .httpErr t => .gwError "status_failed" t
  | .exn e => .gwError "unknown" e
  | .ok d =>
      if d.status == some "authorized" then .success ("authorized", pd)
      else .gwError "not_authorized" "Still pending user action"

/-- capturePayment: posts the session id to /capture; success merges the
decoded response over the existing payment data. -/
def capturePayment (pd : JsObj) (resp : FetchResult JsObj) : GwResult JsObj :=
  match resp with
  | .httpErr t => .gwError "capture_failed" t
  | .exn e => .gwError "unknown" e
  | .ok nd => .success (jsMerge pd nd)

/-- cancelPayment: posts the session id to /cancel; success merges the
decoded response over the existing payment data. -/
def cancelPayment (pd : JsObj) (resp : FetchResult JsObj) : GwResult JsObj :=
  match resp with
  | .httpErr t => .gwError "cancel_failed" t
  | .exn e => .gwError "unknown" e
  | .ok nd => .success (jsMerge pd nd)

/-- refundPayment: posts id and amount to /refund; success merges the
decoded response over the existing payment data. -/
def refundPayment (pd : JsObj) (_amount : Rat) (resp : FetchResult JsObj) :
    GwResult JsObj :=
  match resp with
  | .httpErr t => .gwError "refund_failed" t
  | .exn e => .gwError "unknown" e
  | .ok nd => .success (jsMerge pd nd)

/-- retrievePayment: queries /retrieve/:id and returns the decoded body. -/
def retrievePayment (_pd : JsObj) (resp : FetchResult JsObj) : GwResult JsObj :=
  match resp with
  | .httpErr t => .gwError "retrieve_failed" t
  | .exn e => .gwError "unknown" e
  | .ok d => .success d

/-- The parts of an UpdatePaymentProviderSession that updatePayment
reads. -/
structure UpdateContext where
  amount : Rat
  currency_code : String
  cart_id : Option String
  data : JsObj

/-- The data record updatePayment stores on success. -/
structure UpdateSessionData where
  id : Option String
  verwendungszweck : String
  deriving DecidableEq

/-- updatePayment: posts id, amount, uppercased currency and the update
memo to /update; success stores the response id and the memo. -/
def updatePayment (ctx : UpdateContext) (resp : FetchResult JsObj) :
    GwResult UpdateSessionData :=
  match resp with
  | .httpErr t => .gwError "update_failed" t
  | .exn e => .gwError "unknown" e
  | .ok r => .success ⟨jsLookup r "id", "Order Update #" ++ ctx.cart_id.getD "unknown"⟩

/-- getPaymentStatus: queries /status/:id; a non-2xx answer or a thrown
failure gives "error", a decoded status maps through the switch
(authorized, captured, canceled, default pending). -/
def getPaymentStatus (resp : FetchResult StatusData) : String :=
  match resp with
  | .httpErr _ => "error"
  | .exn _ => "error"
  | .ok d =>
      if d.status == some "authorized" then "authorized"
      else if d.status == some "captured" then "captured"
      else if d.status == some "canceled" then "canceled"
      else "pending"

/-- The request cancelPayment sends: one POST to /cancel with the id on
every invocation, before the response is even known. -/
structure SentRequest where
  url : String
  body : JsObj
  deriving DecidableEq

def cancelRequest (baseUrl : String) (pd : JsObj) : SentRequest :=
  ⟨baseUrl ++ "/cancel", [("id", jsStr pd "id")]⟩

/-- Two successive cancelPayment calls on the same session data: the
list of processor requests issued together with both results. -/
def cancelTwice (baseUrl : String) (pd : JsObj) (r1 r2 : FetchResult JsObj) :
    List SentRequest × GwResult JsObj × GwResult JsObj :=
  ([cancelRequest baseUrl pd, cancelRequest baseUrl pd],
    cancelPayment pd r1, cancelPayment pd r2)

/-- The fields of a webhook payload data object that
getWebhookActionAndData reads, plus the remaining fields it ignores. -/
structure WebhookData where
  event_type : Option String
  session_id : Option String
  amount : Option Rat
  rest : List (String × String)

/-- The full argument of getWebhookActionAndData: parsed data, the raw
body, and the request headers. -/
structure WebhookPayload where
  data : WebhookData
  rawData : String
  headers : List (String × String)

inductive WebhookActionResult where
  | withData (action : String) (session_id : Option String) (amount : Option Rat)
  | noData (action : String)
  deriving DecidableEq

/-- getWebhookActionAndData: switches on data.event_type; the two known
event types map to actions carrying session_id and amount, everything
else maps to not_supported.  The catch branch returning action "failed"
is unreachable (the switch cannot throw) and performs no verification of
rawData or headers. -/
def getWebhookActionAndData (payload : WebhookPayload) : WebhookActionResult :=
  if payload.data.event_type == some "payment_authorized" then
    .withData "authorized" payload.data.session_id payload.data.amount
  else if payload.data.event_type == some "payment_captured" then
    .withData "captured" payload.data.session_id payload.data.amount
  else .noData "not_supported"

end FoxPay

/-!
## CustomPaymentProviderService

The axios-based provider.  Its token manager keeps accessToken and
tokenExpiry on the instance; Date.now() is passed in as the explicit
clock (milliseconds).  JavaScript truthiness matters in
ensureAuthenticated: a null token and an empty-string token both count as
absent, and comparing the clock against a null tokenExpiry coerces null
to zero.
-/

namespace CustomProvider

structure TokenState where
  accessToken : Option String
  tokenExpiry : Option Int
  deriving DecidableEq

/-- JavaScript falsiness of the accessToken slot: null/undefined and the
empty string are falsy. -/
def jsFalsy : Option String → Bool
  | none => true
  | some s => s == ""

/-- The numeric value the comparison Date.now() >= this.tokenExpiry
uses: null coerces to 0. -/
def expiryNum (st : TokenState) : Int := st.tokenExpiry.getD 0

/-- Decoded body of the authentication endpoint response. -/
structure AuthResp where
  accessToken : String
  expiresIn : Int
  deriving DecidableEq

/-- authenticate(): posts projectAccessKey/projectSecretKey; on success
replaces both instance fields wholesale, with the expiry set to the
clock plus expiresIn seconds converted to milliseconds; on failure
throws a wrapped Error. -/
def authenticate (_st : TokenState) (now : Int) (resp : AxiosOutcome AuthResp) :
    Except String TokenState :=
  match resp with
  | .failure m => .error ("Authentication failed: " ++ m)
  | .success r => .ok ⟨some r.accessToken, some (now + r.expiresIn * 1000)⟩

/-- The guard of ensureAuthenticated():
!this.accessToken || Date.now() >= this.tokenExpiry. -/
def needsAuth (st : TokenState) (now : Int) : Bool :=
  jsFalsy st.accessToken || decide (now ≥ expiryNum st)

/-- ensureAuthenticated(): authenticates exactly when the guard holds,
otherwise leaves the state untouched.  The Nat counts the
authentication calls issued. -/
def ensureAuthenticated (st : TokenState) (now : Int) (resp : AxiosOutcome AuthResp) :
    Except String (TokenState × Nat) :=
  if needsAuth st now then
    match authenticate st now resp with
    | .error e => .error e
    | .ok st2 => .ok (st2, 1)
  else .ok (st, 0)

/-- Two successive ensureAuthenticated() calls under one clock value,
threading the instance state and adding up the authentication calls. -/
def ensureTwice (st : TokenState) (now : Int) (r1 r2 : AxiosOutcome AuthResp) :
    Except String (TokenState × Nat) :=
  match ensureAuthenticated st now r1 with
  | .error e => .error e
  | .ok (st1, n1) =>
      match ensureAuthenticated st1 now r2 with
      | .error e => .error e
      | .ok (st2, n2) => .ok (st2, n1 + n2)

/-- The fields of the Medusa cart that createPayment reads
(cart.region.currency_code flattened to currency_code). -/
structure Cart where
  total : Rat
  currency_code : String
  id : String

/-- The JSON body createPayment posts to /api/payment/onlineBankTransfer
(the fixed onlineBankTransferOptions flag omitted). -/
structure CreatePayload where
  amount : Rat
  currency : String
  paymentUsage : String
  notificationUrl : String
  deriving DecidableEq

/-- createPayment builds its request body by dividing cart.total by 100
(the source comments: assuming cart.total is in cents), uppercasing the
region currency and deriving the memo from the cart id. -/
def createPaymentPayload (cart : Cart) (backendUrl : String) : CreatePayload :=
  ⟨cart.total / 100, cart.currency_code.toUpper, "Order " ++ cart.id,
    backendUrl ++ "/payment/webhook"⟩

/-- Decoded body of a successful onlineBankTransfer response. -/
structure CreateRespData where
  transactionId : Option String
  status : Option String
  deriving DecidableEq

/-- The session record createPayment returns on success. -/
structure CreatePaymentResult where
  provider_id : String
  transactionId : Option String
  status : Option String
  amount : Rat
  currency_code : String
  deriving DecidableEq

/-- createPayment: on success returns the provider id, the transaction
data, and the original cart amount and currency; on failure throws a
wrapped Error. -/
def createPayment (cart : Cart) (resp : AxiosOutcome CreateRespData) :
    Except String CreatePaymentResult :=
  match resp with
  | .failure m => .error ("Payment creation failed: " ++ m)
  | .success d =>
      .ok ⟨"custom-payment-provider", d.transactionId, d.status,
        cart.total, cart.currency_code⟩

/-- The payment object refundPayment receives: its stored provider
data. -/
structure Payment where
  data : JsObj

/-- The JSON body refundPayment posts: the stored transactionId and the
amount divided by 100 (the source comments: convert to currency
units). -/
structure RefundPayload where
  paymentTransactionId : String
  amount : Rat
  deriving DecidableEq

def refundPayload (p : Payment) (amount : Rat) : RefundPayload :=
  ⟨jsStr p.data "transactionId", amount / 100⟩

/-- Decoded body of a refund response; the status field may be absent. -/
structure RefundRespData where
  status : Option String
  deriving DecidableEq

structure RefundResult where
  status : String
  data : JsObj
  deriving DecidableEq

/-- refundPayment: on success reports the response status lower-cased
together with the unchanged stored payment data; any axios failure (and
an absent status field, whose toLowerCase call throws inside the try) is
rethrown as a wrapped Error. -/
def refundPayment (p : Payment) (_amount : Rat) (resp : AxiosOutcome RefundRespData) :
    Except String RefundResult :=
  match resp with
  | .failure m => .error ("Refund failed: " ++ m)
  | .success d =>
      match d.status with
      | some s => .ok ⟨s.toLower, p.data⟩
      | none => .error "Refund failed: Cannot read properties of undefined (reading toLowerCase)"

/-- cancelPayment: no processor call at all; returns the payment data
with the status field set to "cancelled". -/
def cancelPayment (paymentData : JsObj) : JsObj :=
  jsMerge paymentData [("status", "cancelled")]

/-- authorizePayment: returns status "authorized" with the unchanged
session data unconditionally — the source comments that authorization is
handled externally and assumed at creation. -/
def authorizePayment (paymentSession : Payment) : String × JsObj :=
  ("authorized", paymentSession.data)

end CustomProvider

/-!
## Claims
-/

/-- C1 (counterexample).  The claim says the signature verifier returns
false rather than throwing on any mismatch including an absent shared
secret.  With the webhook secret environment value absent, the route
does not answer 401: crypto.createHmac receives undefined and throws a
TypeError, so the request errors instead of being rejected as
unauthorized. -/
theorem c1_counterexample :
    webhookRoute none "abc" (some "00") ≠ .ok (⟨401, "Invalid signature"⟩, 0)
    ∧ webhookRoute none "abc" (some "00") = .error hmacUndefinedKeyError := by
  constructor
  · intro hcon
    simp [webhookRoute] at hcon
  · rfl

/-- C1 (amended).  When the shared secret is configured, the webhook
route accepts a request exactly when the provided signature equals the
hex HMAC-SHA384 of the stringified body under that secret, answering 401
"Invalid signature" on every mismatch; when the shared secret is absent,
the HMAC computation throws a TypeError instead of returning false. -/
theorem c1_verify_amended :
    (∀ s p h, webhookRoute (some s) p h
        = .ok ((if h == some (hmacSha384Hex s p)
            then (⟨200, "Webhook received"⟩ : HttpResponse)
            else ⟨401, "Invalid signature"⟩), 0))
    ∧ (∀ p h, webhookRoute none p h = .error hmacUndefinedKeyError) := by
  constructor
  · intro s p h
    simp only [webhookRoute]
    by_cases hc : h = some (hmacSha384Hex s p)
    · subst hc
      simp
    · rw [if_pos (bne_iff_ne.mpr hc), if_neg]
      simp [hc]
  · intro p h
    rfl

/-- C2 (counterexample).  The claim says every webhook request whose
signature does not verify is rejected with zero calls into the state
machine, and only verified requests are translated into state-machine
events.  A concrete request with no valid signature (its x-hmac-sha384
header is absent, so it cannot equal any HMAC value) is indeed answered
401 by the Express route — but getWebhookActionAndData, the FoxPay
webhook handler the framework invokes, translates that very payload into
a captured state-machine event without any verification. -/
theorem c2_counterexample :
    webhookRoute (some "whsec_prod") "unverified body" none
      = .ok (⟨401, "Invalid signature"⟩, 0)
    ∧ FoxPay.getWebhookActionAndData
        ⟨⟨some "payment_captured", some "fp_7", some 250, []⟩, "unverified body", []⟩
      = .withData "captured" (some "fp_7") (some 250) := by
  constructor
  · simp only [webhookRoute]
    rw [if_pos (bne_iff_ne.mpr (fun hcon => Option.noConfusion hcon))]
  · rfl

/-- C2 (amended).  Requests reaching the Express webhook route whose
x-hmac-sha384 header differs from the HMAC of the body under the
configured secret are answered 401 "Invalid signature" with zero calls
made into the payment-session state machine and no state change.  The
FoxPay webhook handler getWebhookActionAndData, however, performs no
signature verification of its own: it translates every payload carrying
a known event_type into a state-machine event, whatever the signature
headers say, so it is not the case that only verified requests are
translated. -/
theorem c2_webhook_amended :
    (∀ s p h, h ≠ some (hmacSha384Hex s p) →
        webhookRoute (some s) p h = .ok (⟨401, "Invalid signature"⟩, 0))
    ∧ (∀ data raw hdrs, data.event_type = some "payment_captured" →
        FoxPay.getWebhookActionAndData ⟨data, raw, hdrs⟩
          = .withData "captured" data.session_id data.amount)
    ∧ (∀ data raw hdrs, data.event_type = some "payment_authorized" →
        FoxPay.getWebhookActionAndData ⟨data, raw, hdrs⟩
          = .withData "authorized" data.session_id data.amount) := by
  refine ⟨?_, ?_, ?_⟩
  · intro s p h hne
    simp only [webhookRoute]
    rw [if_pos (bne_iff_ne.mpr hne)]
  · intro data raw hdrs hev
    simp [FoxPay.getWebhookActionAndData, hev]
  · intro data raw hdrs hev
    simp [FoxPay.getWebhookActionAndData, hev]

theorem c2_webhook_amended_witness :
    FoxPay.getWebhookActionAndData
        ⟨⟨some "payment_authorized", some "fp_9", some 10, [("k", "v")]⟩,
          "body nine", [("x-hmac-sha384", "nonsense")]⟩
      = .withData "authorized" (some "fp_9") (some 10) :=
  c2_webhook_amended.2.2 ⟨some "payment_authorized", some "fp_9", some 10, [("k", "v")]⟩
    "body nine" [("x-hmac-sha384", "nonsense")] rfl

/-- C3.  getWebhookActionAndData is determined by the event_type,
session_id and amount fields of payload.data alone: two payloads that
agree on those three fields produce identical results whatever their
remaining data fields, rawData and headers are — in particular the
handler performs no signature verification of its own. -/
theorem c3_webhook_determined (p q : FoxPay.WebhookPayload)
    (he : p.data.event_type = q.data.event_type)
    (hs : p.data.session_id = q.data.session_id)
    (ha : p.data.amount = q.data.amount) :
    FoxPay.getWebhookActionAndData p = FoxPay.getWebhookActionAndData q := by
  simp only [FoxPay.getWebhookActionAndData, he, hs, ha]

theorem c3_webhook_determined_witness :
    FoxPay.getWebhookActionAndData
        ⟨⟨some "payment_captured", some "fp_1", some 100, [("extra", "x")]⟩,
          "one raw body", [("x-hmac-sha384", "mismatching")]⟩
      = FoxPay.getWebhookActionAndData
        ⟨⟨some "payment_captured", some "fp_1", some 100, []⟩, "another raw body", []⟩ :=
  c3_webhook_determined _ _ rfl rfl rfl

/-- C4 (counterexample).  The claim says every gateway operation —
refund among them — returns a tagged value and never raises.  The
CustomPaymentProviderService refundPayment instead rethrows a wrapped
Error when the axios call fails (axios rejects on a non-2xx response),
so the failure reaches the caller as a raised exception, not as a tagged
GatewayError value. -/
theorem c4_counterexample :
    CustomProvider.refundPayment ⟨[("transactionId", "tx_1")]⟩ 500
        (.failure "Request failed with status code 400")
      = .error "Refund failed: Request failed with status code 400" := rfl

/-- C4 (amended).  The FoxPay operations (initiate, authorize, capture,
cancel, refund, retrieve, update) always return a tagged value: a
non-2xx response yields the operation-specific code with the response
body text as detail, and a thrown transport or decode failure yields
code "unknown" carrying the thrown value; a 2xx response yields the
success payload.  The Custom provider operations instead throw a wrapped
Error on failure, as refundPayment shows. -/
theorem c4_gateway_amended :
    (∀ ctx t, FoxPay.initiatePayment ctx (.httpErr t) = .gwError "init_failed" t)
    ∧ (∀ ctx e, FoxPay.initiatePayment ctx (.exn e) = .gwError "unknown" e)
    ∧ (∀ pd t, FoxPay.authorizePayment pd (.httpErr t) = .gwError "status_failed" t)
    ∧ (∀ pd e, FoxPay.authorizePayment pd (.exn e) = .gwError "unknown" e)
    ∧ (∀ pd t, FoxPay.capturePayment pd (.httpErr t) = .gwError "capture_failed" t)
    ∧ (∀ pd e, FoxPay.capturePayment pd (.exn e) = .gwError "unknown" e)
    ∧ (∀ pd nd, FoxPay.capturePayment pd (.ok nd) = .success (jsMerge pd nd))
    ∧ (∀ pd t, FoxPay.cancelPayment pd (.httpErr t) = .gwError "cancel_failed" t)
    ∧ (∀ pd e, FoxPay.cancelPayment pd (.exn e) = .gwError "unknown" e)
    ∧ (∀ pd a t, FoxPay.refundPayment pd a (.httpErr t) = .gwError "refund_failed" t)
    ∧ (∀ pd a e, FoxPay.refundPayment pd a (.exn e) = .gwError "unknown" e)
    ∧ (∀ pd t, FoxPay.retrievePayment pd (.httpErr t) = .gwError "retrieve_failed" t)
    ∧ (∀ pd e, FoxPay.retrievePayment pd (.exn e) = .gwError "unknown" e)
    ∧ (∀ pd d, FoxPay.retrievePayment pd (.ok d) = .success d)
    ∧ (∀ ctx t, FoxPay.updatePayment ctx (.httpErr t) = .gwError "update_failed" t)
    ∧ (∀ ctx e, FoxPay.updatePayment ctx (.exn e) = .gwError "unknown" e)
    ∧ (∀ p a m, CustomProvider.refundPayment p a (.failure m)
        = .error ("Refund failed: " ++ m)) := by
  refine ⟨?_, ?_, ?_, ?_, ?_, ?_, ?_, ?_, ?_, ?_, ?_, ?_, ?_, ?_, ?_, ?_, ?_⟩ <;>
    intros <;> rfl

/-- C5.  The token manager authenticates exactly when the token slot is
empty (null or the falsy empty string) or the clock has reached the
stored expiry; with a cached token whose expiry is in the future, two
ensureAuthenticated calls under a fixed clock return the identical state
and issue zero authentication calls; and a refresh replaces the
credential wholesale with the new token and the clock plus expiresIn
seconds (converted to milliseconds). -/
theorem c5_token_manager :
    (∀ st now resp, CustomProvider.jsFalsy st.accessToken = false →
        now < CustomProvider.expiryNum st →
        CustomProvider.ensureAuthenticated st now resp = .ok (st, 0))
    ∧ (∀ st now resp,
        (CustomProvider.jsFalsy st.accessToken = true ∨ CustomProvider.expiryNum st ≤ now) →
        CustomProvider.ensureAuthenticated st now resp
          = (CustomProvider.authenticate st now resp).map (fun st2 => (st2, 1)))
    ∧ (∀ st now tok ein, CustomProvider.authenticate st now (.success ⟨tok, ein⟩)
        = .ok ⟨some tok, some (now + ein * 1000)⟩)
    ∧ (∀ st now t r1 r2, st.tokenExpiry = some t → now < t →
        CustomProvider.jsFalsy st.accessToken = false →
        CustomProvider.ensureTwice st now r1 r2 = .ok (st, 0)) := by
  refine ⟨?_, ?_, ?_, ?_⟩
  · intro st now resp h1 h2
    simp [CustomProvider.ensureAuthenticated, CustomProvider.needsAuth, h1, not_le.mpr h2]
  · intro st now resp hcond
    have hguard : CustomProvider.needsAuth st now = true := by
      rcases hcond with h | h
      · simp [CustomProvider.needsAuth, h]
      · simp [CustomProvider.needsAuth, h]
    simp only [CustomProvider.ensureAuthenticated, hguard, if_true]
    cases resp <;> rfl
  · intro st now tok ein
    rfl
  · intro st now t r1 r2 hexp hlt htok
    have h2 : now < CustomProvider.expiryNum st := by
      simp [CustomProvider.expiryNum, hexp, hlt]
    have hone : CustomProvider.ensureAuthenticated st now r1 = .ok (st, 0) := by
      simp [CustomProvider.ensureAuthenticated, CustomProvider.needsAuth, htok, not_le.mpr h2]
    have htwo : CustomProvider.ensureAuthenticated st now r2 = .ok (st, 0) := by
      simp [CustomProvider.ensureAuthenticated, CustomProvider.needsAuth, htok, not_le.mpr h2]
    simp [CustomProvider.ensureTwice, hone, htwo]

theorem c5_token_manager_witness :
    CustomProvider.ensureTwice ⟨some "tok_a", some 5000⟩ 1000
        (.failure "auth endpoint down") (.failure "auth endpoint down")
      = .ok (⟨some "tok_a", some 5000⟩, 0) :=
  c5_token_manager.2.2.2 ⟨some "tok_a", some 5000⟩ 1000 5000
    (.failure "auth endpoint down") (.failure "auth endpoint down")
    rfl (by decide) (by decide)

/-- C6 (counterexample).  The claim says authorize returns a
not_authorized error in every case other than the processor reporting
"authorized".  When the status query itself answers non-2xx, the FoxPay
authorizePayment returns code "status_failed" (with the body text), not
"not_authorized". -/
theorem c6_counterexample :
    FoxPay.authorizePayment [("id", "fp_1")] (.httpErr "gateway timeout")
      = .gwError "status_failed" "gateway timeout"
    ∧ FoxPay.authorizePayment [("id", "fp_1")] (.httpErr "gateway timeout")
      ≠ .gwError "not_authorized" "Still pending user action" := by
  exact ⟨rfl, by decide⟩

/-- C6 (amended).  The FoxPay authorize queries the processor status for
the session id and reports authorized with a copy of the unchanged
session data exactly when the decoded status is "authorized"; a decoded
response with any other status returns a not_authorized error leaving
the session data untouched, while a failure of the query itself returns
status_failed (non-2xx) or unknown (thrown failure).  The Custom
provider authorizePayment performs no query and reports authorized
unconditionally. -/
theorem c6_authorize_amended :
    (∀ pd, FoxPay.authorizePayment pd (.ok ⟨some "authorized"⟩)
        = .success ("authorized", pd))
    ∧ (∀ pd s, s ≠ some "authorized" →
        FoxPay.authorizePayment pd (.ok ⟨s⟩)
          = .gwError "not_authorized" "Still pending user action")
    ∧ (∀ pd t, FoxPay.authorizePayment pd (.httpErr t) = .gwError "status_failed" t)
    ∧ (∀ pd e, FoxPay.authorizePayment pd (.exn e) = .gwError "unknown" e)
    ∧ (∀ p, CustomProvider.authorizePayment p = ("authorized", p.data)) := by
  refine ⟨?_, ?_, ?_, ?_, ?_⟩
  · intro pd
    simp [FoxPay.authorizePayment]
  · intro pd s hs
    simp [FoxPay.authorizePayment, hs]
  · intro pd t
    rfl
  · intro pd e
    rfl
  · intro p
    rfl

theorem c6_authorize_amended_witness :
    FoxPay.authorizePayment [("id", "fp_1")] (.ok ⟨some "pending"⟩)
      = .gwError "not_authorized" "Still pending user action" :=
  c6_authorize_amended.2.1 [("id", "fp_1")] (some "pending") (by decide)

/-- C7.  getPaymentStatus maps a decoded processor status "authorized"
to authorized, "captured" to captured, "canceled" to canceled and any
other decoded value (an arbitrary other string, or an absent field) to
pending; a failed status query — non-2xx response or thrown failure —
maps to error. -/
theorem c7_get_payment_status :
    FoxPay.getPaymentStatus (.ok ⟨some "authorized"⟩) = "authorized"
    ∧ FoxPay.getPaymentStatus (.ok ⟨some "captured"⟩) = "captured"
    ∧ FoxPay.getPaymentStatus (.ok ⟨some "canceled"⟩) = "canceled"
    ∧ (∀ s : Option String, s ≠ some "authorized" → s ≠ some "captured" →
        s ≠ some "canceled" → FoxPay.getPaymentStatus (.ok ⟨s⟩) = "pending")
    ∧ (∀ t, FoxPay.getPaymentStatus (.httpErr t) = "error")
    ∧ (∀ e, FoxPay.getPaymentStatus (.exn e) = "error") := by
  refine ⟨by decide, by decide, by decide, ?_, fun t => rfl, fun e => rfl⟩
  intro s h1 h2 h3
  have e1 : (s == some "authorized") = false := beq_eq_false_iff_ne.mpr h1
  have e2 : (s == some "captured") = false := beq_eq_false_iff_ne.mpr h2
  have e3 : (s == some "canceled") = false := beq_eq_false_iff_ne.mpr h3
  simp [FoxPay.getPaymentStatus, e1, e2, e3]

theorem c7_get_payment_status_witness :
    FoxPay.getPaymentStatus (.ok ⟨some "processing"⟩) = "pending" :=
  c7_get_payment_status.2.2.2.1 (some "processing") (by decide) (by decide) (by decide)

/-- C8 (counterexample).  The claim says initiation sends the processor
the amount as an integer in the smallest currency unit.  The Custom
provider createPayment divides cart.total by 100 before sending: for a
cart totalling 150 smallest units it posts 3/2 — a fractional
major-unit value, not the smallest-unit integer 150. -/
theorem c8_counterexample :
    (CustomProvider.createPaymentPayload ⟨150, "eur", "cart_01"⟩
        "https://backend.example").amount = 3 / 2
    ∧ ((3 : Rat) / 2) ≠ 150 := by
  constructor
  · show (150 : Rat) / 100 = 3 / 2
    norm_num
  · norm_num

/-- C8 (amended).  The FoxPay initiate posts the amount unchanged (the
source assumes it is already in the smallest currency unit), the
currency code uppercased and a memo derived from the cart id; on a 2xx
response the session data stored is the returned id, qr_code_url and
that memo, a non-2xx response surfaces an init_failed error with the
body text, and a thrown failure surfaces unknown — no session data is
produced on either error.  The Custom provider createPayment instead
posts cart.total divided by 100 with the uppercased region currency. -/
theorem c8_initiate_amended :
    (∀ ctx, (FoxPay.initiatePayload ctx).amount = ctx.amount)
    ∧ (∀ ctx, (FoxPay.initiatePayload ctx).currency = ctx.currency_code.toUpper)
    ∧ (∀ ctx, (FoxPay.initiatePayload ctx).verwendungszweck
        = "Order #" ++ ctx.cart_id.getD "unknown")
    ∧ (∀ ctx d, FoxPay.initiatePayment ctx (.ok d)
        = .success ⟨d.id, d.qr_code_url, "Order #" ++ ctx.cart_id.getD "unknown"⟩)
    ∧ (∀ ctx t, FoxPay.initiatePayment ctx (.httpErr t) = .gwError "init_failed" t)
    ∧ (∀ ctx e, FoxPay.initiatePayment ctx (.exn e) = .gwError "unknown" e)
    ∧ (∀ c bu, (CustomProvider.createPaymentPayload c bu).amount = c.total / 100)
    ∧ (∀ c bu, (CustomProvider.createPaymentPayload c bu).currency
        = c.currency_code.toUpper) := by
  refine ⟨?_, ?_, ?_, ?_, ?_, ?_, ?_, ?_⟩ <;> intros <;> rfl

/-- A spread that re-applies the same overriding object is absorbed:
merging b a second time changes nothing. -/
theorem jsMerge_absorb (a b : JsObj) : jsMerge (jsMerge a b) b = jsMerge a b := by
  have hb : b.filter (fun p => !(b.any (fun q => q.1 == p.1))) = [] := by
    rw [List.filter_eq_nil_iff]
    intro p hp
    simp only [Bool.not_eq_true', Bool.not_eq_false]
    exact List.any_eq_true.mpr ⟨p, hp, by simp⟩
  simp [jsMerge, List.filter_append, List.filter_filter, hb]

/-- Looking up a key of the overriding object after a spread finds the
overriding value. -/
theorem jsLookup_jsMerge_single (a : JsObj) (k v : String) :
    jsLookup (jsMerge a [(k, v)]) k = some v := by
  induction a with
  | nil => simp [jsMerge, jsLookup]
  | cons hd tl ih =>
      by_cases hk : hd.1 = k
      · simpa [jsMerge, jsLookup, hk] using ih
      · have hne : (hd.1 == k) = false := beq_eq_false_iff_ne.mpr hk
        simpa [jsMerge, jsLookup, List.find?, hne] using ih

/-- C9 (counterexample).  The claim says two cancel calls on the same
externalId yield status canceled both times with no processor-visible
side effect beyond the first call.  The FoxPay cancelPayment posts to
/cancel on every invocation — the trace of a double cancel holds two
processor requests — and merely reflects the processor response, so
when the processor rejects the second request the adapter returns a
cancel_failed error, not a canceled status. -/
theorem c9_counterexample :
    (FoxPay.cancelTwice "https://api.foxpay.com" [("id", "fp_1")]
        (.ok [("status", "canceled")]) (.httpErr "Payment already canceled")).2.2
      = .gwError "cancel_failed" "Payment already canceled"
    ∧ (FoxPay.cancelTwice "https://api.foxpay.com" [("id", "fp_1")]
        (.ok [("status", "canceled")]) (.httpErr "Payment already canceled")).1.length
      = 2 := ⟨rfl, rfl⟩

/-- C9 (amended).  The Custom provider cancelPayment is idempotent and
processor-free: it touches no processor, sets the status field of the
returned data to "cancelled" and applying it twice equals applying it
once.  The FoxPay cancelPayment sends a /cancel request on every
invocation (two calls produce two processor requests) and classifies a
non-2xx response of any one of them as a cancel_failed error. -/
theorem c9_cancel_amended :
    (∀ pd, CustomProvider.cancelPayment (CustomProvider.cancelPayment pd)
        = CustomProvider.cancelPayment pd)
    ∧ (∀ pd, jsLookup (CustomProvider.cancelPayment pd) "status" = some "cancelled")
    ∧ (∀ base pd r1 r2, (FoxPay.cancelTwice base pd r1 r2).1
        = [FoxPay.cancelRequest base pd, FoxPay.cancelRequest base pd])
    ∧ (∀ pd t, FoxPay.cancelPayment pd (.httpErr t) = .gwError "cancel_failed" t) := by
  refine ⟨?_, ?_, ?_, ?_⟩
  · intro pd
    exact jsMerge_absorb pd [("status", "cancelled")]
  · intro pd
    exact jsLookup_jsMerge_single pd "status" "cancelled"
  · intro base pd r1 r2
    rfl
  · intro pd t
    rfl

/-- C10.  A successful refund in the Custom provider reports the
processor operation status verbatim except lower-cased, and the stored
provider data comes back unmodified — the function writes no session
state, so the session status is untouched. -/
theorem c10_refund_frame (p : CustomProvider.Payment) (amount : Rat) (s : String) :
    CustomProvider.refundPayment p amount (.success ⟨some s⟩)
      = .ok ⟨s.toLower, p.data⟩ := rfl
